import Mathlib

set_option maxHeartbeats 1000000

/- Shallow embedding of the hypercloud-multi-operator cluster-registration
   controller (controllers/cluster/clusterregistration_controller.go), the
   cluster-claim admission webhook, and the control-plane-endpoint
   update step of the secret controller.

   External library calls (base64 decode, kubeconfig load, remote client
   construction, URI-to-secret-name derivation) and transient API-server
   failures are modelled by an explicit environment `Env`; the Kubernetes
   object store is modelled by an explicit `World`. -/

/-- Spec.ClusterName / Spec.KubeConfig of a ClusterRegistration. -/
structure ClusterRegistrationSpec where
  clusterName : String
  kubeConfig : String
  deriving DecidableEq

/-- Status.Phase / Status.Reason of a ClusterRegistration. -/
structure ClusterRegistrationStatus where
  phase : String
  reason : String
  deriving DecidableEq

/-- A ClusterRegistration object (the onboarding request). -/
structure ClusterRegistration where
  name : String
  nsName : String
  annotations : List (String × String)
  spec : ClusterRegistrationSpec
  status : ClusterRegistrationStatus
  deriving DecidableEq

/-- A ClusterManager object (the tracking resource); only the fields the
    embedded code touches: metadata and Status.ControlPlaneEndpoint. -/
structure ClusterManager where
  name : String
  nsName : String
  annotations : List (String × String)
  labels : List (String × String)
  controlPlaneEndpoint : String
  deriving DecidableEq

/-- A corev1.Secret, restricted to the fields the embedded code touches:
    metadata and the "value" data field holding the decoded kubeconfig. -/
structure Secret where
  name : String
  nsName : String
  annotations : List (String × String)
  finalizers : List String
  value : String
  deriving DecidableEq

/-- The local object store: ClusterManagers, Secrets, ClusterRegistrations
    by (namespace, name), plus the external cluster_member table rows
    written by util.Insert. -/
structure World where
  clms : List ClusterManager
  secrets : List Secret
  clusterRegistrations : List ClusterRegistration
  members : List String
  deriving DecidableEq

/-- The parsed form of a kubeconfig, as produced by clientcmd.Load:
    the current-context name and the Contexts/Clusters maps (a context
    is reduced to the cluster name it references; a cluster to its
    Server field, the only parts the embedded code reads). -/
structure KubeConfigFile where
  currentContext : String
  contexts : List (String × String)
  clusters : List (String × String)
  deriving DecidableEq

/-- Error values returned by the embedded operations; claims only
    distinguish nil from non-nil and the origin of the error. -/
inductive GoErr where
  | decodeError
  | remoteClientError
  | getError
  | createError
  | insertError
  | loadError
  | uriParseError
  | patchError
  | aggregate
  deriving DecidableEq

/-- The environment: deterministic outcomes of library calls and of every
    fallible API-server interaction.  "No external state change" between two
    reconciles is expressed by reusing the same `Env`. -/
structure Env where
  decodeB64 : String → Option String
  decodeB64Trunc : String → String
  getRemoteClientOk : String → Bool
  listNodesErr : String → Bool
  listNodesItemsNil : String → Bool
  loadKubeConfig : String → Option KubeConfigFile
  uriToSecretName : String → Option String
  hcDomain : String
  getClmErr : Bool
  getSecretErr : Bool
  getClrErr : Bool
  createSecretErr : Bool
  createClmErr : Bool
  insertErr : Bool
  updateStatusErr : Bool
  patchErr : Bool

/-- Modelled from the spec: phase enum value `Validated` (the
    `ClusterRegistrationPhase` constants live in the API types file, which
    is not part of the sources; the spec fixes the enum as
    "", Validated, SecretCreated, Success, Failed, Deleted). -/
def ClusterRegistrationPhaseValidated : String := "Validated"

/-- Modelled from the spec: phase enum value `SecretCreated`. -/
def ClusterRegistrationPhaseSecretCreated : String := "SecretCreated"

/-- Modelled from the spec: phase enum value `Success`. -/
def ClusterRegistrationPhaseSuccess : String := "Success"

/-- Modelled from the spec: phase enum value `Failed`. -/
def ClusterRegistrationPhaseFailed : String := "Failed"

/-- Modelled from the spec: reason enum value `InvalidKubeconfig`. -/
def ClusterRegistrationReasonInvalidKubeconfig : String := "InvalidKubeconfig"

/-- Modelled from the spec: reason enum value `ClusterNotFound`. -/
def ClusterRegistrationReasonClusterNotFound : String := "ClusterNotFound"

/-- Modelled from the spec: reason enum value `ClusterNameDuplicated`. -/
def ClusterRegistrationReasonClusterNameDuplicated : String := "ClusterNameDuplicated"

/-- Modelled from the spec: util.KubeconfigSuffix, the credential-secret
    name suffix `<clusterName>-kubeconfig`. -/
def KubeconfigSuffix : String := "-kubeconfig"

/-- Modelled from the spec: util annotation key for the owner. -/
def AnnotationKeyOwner : String := "owner"

/-- Modelled from the spec: util annotation key for the creator. -/
def AnnotationKeyCreator : String := "creator"

/-- Modelled from the spec: util annotation key for the derived
    external-system (argo) secret name. -/
def AnnotationKeyArgoClusterSecret : String := "argoClusterSecret"

/-- Modelled from the spec: util annotation key for the discovered
    api-server endpoint. -/
def AnnotationKeyClmApiserverEndpoint : String := "apiserverEndpoint"

/-- Modelled from the spec: util annotation key for the DNS suffix. -/
def AnnotationKeyClmDns : String := "dns"

/-- Modelled from the spec: util label key for the cluster type. -/
def LabelKeyClmClusterType : String := "clusterType"

/-- Modelled from the spec: util label key for the parent onboarding
    resource name. -/
def LabelKeyClmParent : String := "parent"

/-- Modelled from the spec: util.ClusterTypeRegistered label value. -/
def ClusterTypeRegistered : String := "registered"

/-- Modelled from the spec: util.SecretFinalizer, the finalizer placed on
    the credential secret. -/
def SecretFinalizer : String := "secretFinalizer"

/-- Go map lookup on a string-keyed association list. -/
def lookupStr (l : List (String × String)) (k : String) : Option String :=
  (l.find? (fun p => p.1 == k)).map (fun p => p.2)

/-- Go map access `obj.Annotations[k]` (missing key yields ""). -/
def lookupAnn (cr : ClusterRegistration) (k : String) : String :=
  (lookupStr cr.annotations k).getD ""

/-- Status.SetTypedPhase: set only the phase. -/
def setPhase (cr : ClusterRegistration) (p : String) : ClusterRegistration :=
  { cr with status := { cr.status with phase := p } }

/-- SetTypedPhase(Failed) followed by SetTypedReason(r). -/
def setFailed (cr : ClusterRegistration) (r : String) : ClusterRegistration :=
  { cr with status := { phase := ClusterRegistrationPhaseFailed, reason := r } }

/-- b64.StdEncoding.DecodeString with the error ignored (`decoded, _ :=`):
    on success the full decode, on failure the partially decoded bytes. -/
def rawDecode (env : Env) (s : String) : String :=
  match env.decodeB64 s with
  | some d => d
  | none => env.decodeB64Trunc s

/-- Keyed lookup of a ClusterManager, as r.Get with a NamespacedName. -/
def findClm (w : World) (ns nm : String) : Option ClusterManager :=
  w.clms.find? (fun c => c.nsName == ns && c.name == nm)

/-- Keyed lookup of a Secret. -/
def findSecret (w : World) (ns nm : String) : Option Secret :=
  w.secrets.find? (fun s => s.nsName == ns && s.name == nm)

/-- Keyed lookup of a ClusterRegistration. -/
def findCR (w : World) (ns nm : String) : Option ClusterRegistration :=
  w.clusterRegistrations.find? (fun c => c.nsName == ns && c.name == nm)

/-- Write back a ClusterRegistration at its own key (update or create). -/
def storeCR (cr : ClusterRegistration) (w : World) : World :=
  let rest := w.clusterRegistrations.filter
    (fun c => !(c.nsName == cr.nsName && c.name == cr.name))
  { w with clusterRegistrations := cr :: rest }

/-- Write back a ClusterManager at its own key (status patch). -/
def storeClm (clm : ClusterManager) (w : World) : World :=
  let rest := w.clms.filter
    (fun c => !(c.nsName == clm.nsName && c.name == clm.name))
  { w with clms := clm :: rest }

/-- kubeConfig.Clusters[kubeConfig.Contexts[kubeConfig.CurrentContext].Cluster].Server.
    `none` models the nil-pointer dereference that a missing map entry
    causes in the Go expression. -/
def serverLookup (kc : KubeConfigFile) : Option String :=
  match lookupStr kc.contexts kc.currentContext with
  | none => none
  | some clusterRef => lookupStr kc.clusters clusterRef

/-- Character class [0-9a-zA-Z. slash dash] of the endpoint regular expression. -/
def isEndpointChar (c : Char) : Bool :=
  c.isAlphanum || c == '.' || c == '/' || c == '-'

/-- Does the character list start with the given pattern? -/
def listStartsWith : List Char → List Char → Bool
  | [], _ => true
  | _ :: _, [] => false
  | p :: ps, c :: cs => p == c && listStartsWith ps cs

/-- The literal "https://" as characters. -/
def httpsLit : List Char := ['h', 't', 't', 'p', 's', ':', '/', '/']

/-- Try to match `https://[0-9a-zA-Z. slash dash]+` at the head of the list
    (greedy, as RE2 is for this pattern). -/
def matchHttpsAt (cs : List Char) : Option (List Char) :=
  if listStartsWith httpsLit cs then
    let run := (cs.drop 8).takeWhile isEndpointChar
    if run.isEmpty then none else some (httpsLit ++ run)
  else none

/-- Leftmost match of the endpoint pattern. -/
def findHttpsList : List Char → Option (List Char)
  | [] => none
  | c :: cs =>
    match matchHttpsAt (c :: cs) with
    | some m => some m
    | none => findHttpsList cs

/-- regexp.Compile("https://[0-9a-zA-Z. slash dash]+") followed by FindString:
    `none` models the empty-string result (FindString returns "" on no
    match, and the subsequent slice [8:] then panics). -/
def findHttps (s : String) : Option String :=
  (findHttpsList s.data).map (fun l => String.mk l)

/-- The prefix of the list before the first occurrence of sep. -/
def splitHeadAux (sep : List Char) : List Char → List Char
  | [] => []
  | c :: cs => if listStartsWith sep (c :: cs) then [] else c :: splitHeadAux sep cs

/-- strings.Split(s, sep)[0]: the part of s before the first occurrence
    of sep. -/
def goSplitHead (s sep : String) : String :=
  String.mk (splitHeadAux sep.data s.data)

/-- ASCII case folding of a character code. -/
def foldCode (c : Char) : Nat :=
  if 65 ≤ c.toNat ∧ c.toNat ≤ 90 then c.toNat + 32 else c.toNat

/-- strings.EqualFold, restricted to ASCII case folding. -/
def goEqualFold (a b : String) : Bool :=
  a.data.map foldCode == b.data.map foldCode

/-- CheckValidation: on phase "", decode the credential, probe the remote
    cluster, and check tracking-resource name duplication; otherwise an
    immediate no-op.  The returned `Option GoErr` is the Go error value
    (note the ClusterNotFound and ClusterNameDuplicated branches return a
    nil error, the latter because the duplicate branch returns the `err`
    of a successful Get). -/
def CheckValidation (env : Env) (cr : ClusterRegistration) (w : World) :
    Option (ClusterRegistration × World × Option GoErr) :=
  if cr.status.phase ≠ "" then
    some (cr, w, none)
  else
    match env.decodeB64 cr.spec.kubeConfig with
    | none =>
      some (setFailed cr ClusterRegistrationReasonInvalidKubeconfig, w,
        some GoErr.decodeError)
    | some decoded =>
      if env.getRemoteClientOk decoded = false then
        some (setFailed cr ClusterRegistrationReasonInvalidKubeconfig, w,
          some GoErr.remoteClientError)
      else if env.listNodesErr decoded && env.listNodesItemsNil decoded then
        some (setFailed cr ClusterRegistrationReasonClusterNotFound, w, none)
      else if env.getClmErr then
        some (cr, w, some GoErr.getError)
      else
        match findClm w cr.nsName cr.spec.clusterName with
        | some _ =>
          some (setFailed cr ClusterRegistrationReasonClusterNameDuplicated, w, none)
        | none =>
          some (setPhase cr ClusterRegistrationPhaseValidated, w, none)

/-- CreateKubeconfigSecret: on phase Validated, re-decode, load the
    kubeconfig, derive the argo secret name, and get-or-create the
    credential secret; `none` models the nil-map-entry panic in the
    server-URI expression. -/
def CreateKubeconfigSecret (env : Env) (cr : ClusterRegistration) (w : World) :
    Option (ClusterRegistration × World × Option GoErr) :=
  if cr.status.phase ≠ ClusterRegistrationPhaseValidated then
    some (cr, w, none)
  else
    let decoded := rawDecode env cr.spec.kubeConfig
    match env.loadKubeConfig decoded with
    | none => some (cr, w, some GoErr.loadError)
    | some kubeConfig =>
      match serverLookup kubeConfig with
      | none => none
      | some serverURI =>
        match env.uriToSecretName serverURI with
        | none => some (cr, w, some GoErr.uriParseError)
        | some argoSecretName =>
          if env.getSecretErr then
            some (cr, w, some GoErr.getError)
          else
            match findSecret w cr.nsName (cr.spec.clusterName ++ KubeconfigSuffix) with
            | some _ =>
              some (setPhase cr ClusterRegistrationPhaseSecretCreated, w, none)
            | none =>
              if env.createSecretErr then
                some (cr, w, some GoErr.createError)
              else
                let sec : Secret :=
                  { name := cr.spec.clusterName ++ KubeconfigSuffix
                    nsName := cr.nsName
                    annotations :=
                      [(AnnotationKeyOwner, lookupAnn cr AnnotationKeyCreator),
                       (AnnotationKeyCreator, lookupAnn cr AnnotationKeyCreator),
                       (AnnotationKeyArgoClusterSecret, argoSecretName)]
                    finalizers := [SecretFinalizer]
                    value := decoded }
                some (setPhase cr ClusterRegistrationPhaseSecretCreated,
                  { w with secrets := sec :: w.secrets }, none)

/-- CreateClusterManager: on phase SecretCreated, extract the endpoint by
    regex over the decoded credential (`none` models the out-of-range
    panic of FindString(...)[8:] on no match), then get-or-create the
    ClusterManager and register it in the cluster_member table. -/
def CreateClusterManager (env : Env) (cr : ClusterRegistration) (w : World) :
    Option (ClusterRegistration × World × Option GoErr) :=
  if cr.status.phase ≠ ClusterRegistrationPhaseSecretCreated then
    some (cr, w, none)
  else
    let decoded := rawDecode env cr.spec.kubeConfig
    match findHttps decoded with
    | none => none
    | some m =>
      let endpoint := m.drop 8
      if env.getClmErr then
        some (cr, w, some GoErr.getError)
      else
        match findClm w cr.nsName cr.spec.clusterName with
        | some _ => some (setPhase cr ClusterRegistrationPhaseSuccess, w, none)
        | none =>
          if env.createClmErr then
            some (cr, w, some GoErr.createError)
          else
            let clm : ClusterManager :=
              { name := cr.spec.clusterName
                nsName := cr.nsName
                annotations :=
                  [(AnnotationKeyOwner, lookupAnn cr AnnotationKeyCreator),
                   (AnnotationKeyCreator, lookupAnn cr AnnotationKeyCreator),
                   (AnnotationKeyClmApiserverEndpoint, endpoint),
                   (AnnotationKeyClmDns, env.hcDomain)]
                labels :=
                  [(LabelKeyClmClusterType, ClusterTypeRegistered),
                   (LabelKeyClmParent, cr.name)]
                controlPlaneEndpoint := "" }
            let w' := { w with clms := clm :: w.clms }
            if env.insertErr then
              some (cr, w', some GoErr.insertError)
            else
              some (setPhase cr ClusterRegistrationPhaseSuccess,
                { w' with members := clm.name :: w'.members }, none)

/-- The inner reconcile driver: run the three phase functions in order on
    the same in-memory object (the loop `continue` on a recorded error
    only skips the result merge, not the next phase call), collecting the
    non-nil errors for aggregation. -/
def reconcile (env : Env) (cr : ClusterRegistration) (w : World) :
    Option (ClusterRegistration × World × List GoErr) :=
  match CheckValidation env cr w with
  | none => none
  | some (c1, w1, e1) =>
    match CreateKubeconfigSecret env c1 w1 with
    | none => none
    | some (c2, w2, e2) =>
      match CreateClusterManager env c2 w2 with
      | none => none
      | some (c3, w3, e3) =>
        some (c3, w3, [e1, e2, e3].filterMap id)

/-- reconcilePhase: the deferred coarse phase summary (compares against the
    literal "validated"). -/
def reconcilePhase (cr : ClusterRegistration) : ClusterRegistration :=
  if cr.status.phase == "validated" then
    setPhase cr ClusterRegistrationPhaseSuccess
  else
    cr

/-- The outer Reconcile: fetch the object, run the inner driver, then the
    deferred reconcilePhase and optimistic patch; a patch failure
    overwrites the named return error (`reterr = err`). -/
def Reconcile (env : Env) (ns nm : String) (w : World) :
    Option (World × Option GoErr) :=
  if env.getClrErr then some (w, some GoErr.getError)
  else
    match findCR w ns nm with
    | none => some (w, none)
    | some cr =>
      match reconcile env cr w with
      | none => none
      | some (c1, w1, errs) =>
        let c2 := reconcilePhase c1
        if env.patchErr then some (w1, some GoErr.patchError)
        else some (storeCR c2 w1, if errs.isEmpty then none else some GoErr.aggregate)

/-- requeueClusterRegistrationsForClusterManager: the cascade mapping
    function invoked on deletion of a ClusterManager; it looks the parent
    ClusterRegistration up by label, and only when the parent phase is
    "Success" updates it to Deleted / "cluster is deleted".  It always
    returns an empty request list, and a failing status update is only
    logged. -/
def requeueClusterRegistrationsForClusterManager (env : Env)
    (clm : ClusterManager) (w : World) : World × List Unit :=
  let parentName := (lookupStr clm.labels LabelKeyClmParent).getD ""
  if env.getClrErr then (w, [])
  else
    match findCR w clm.nsName parentName with
    | none => (w, [])
    | some clr =>
      if clr.status.phase ≠ "Success" then (w, [])
      else if env.updateStatusErr then (w, [])
      else
        (storeCR { clr with status := { phase := "Deleted", reason := "cluster is deleted" } } w,
         [])

/-- The DeleteFunc predicate of the ClusterManager watch in
    SetupWithManager: trigger only for cluster-type "registered". -/
def deleteEventTriggers (clm : ClusterManager) : Bool :=
  match lookupStr clm.labels LabelKeyClmClusterType with
  | some v => v == ClusterTypeRegistered
  | none => false

/-- UpdateClusterManagerControlPlaneEndpoint of the secret controller:
    load the kubeconfig from the secret, look the ClusterManager up by the
    secret name stripped of its suffix, and on a case-insensitive mismatch
    patch the recorded endpoint; NotFound falls through silently, and a
    patch failure is only logged.  `none` models the nil-map-entry panic
    in the server expression. -/
def UpdateClusterManagerControlPlaneEndpoint (env : Env) (sec : Secret)
    (w : World) : Option (World × Option GoErr) :=
  match env.loadKubeConfig sec.value with
  | none => some (w, some GoErr.loadError)
  | some kubeConfig =>
    let clmName := goSplitHead sec.name KubeconfigSuffix
    if env.getClmErr then some (w, some GoErr.getError)
    else
      match findClm w sec.nsName clmName with
      | none => some (w, none)
      | some clm =>
        match serverLookup kubeConfig with
        | none => none
        | some server =>
          if goEqualFold clm.controlPlaneEndpoint server then some (w, none)
          else if env.patchErr then some (w, none)
          else some (storeClm { clm with controlPlaneEndpoint := server } w, none)

/-- The ClusterClaim spec payload; its concrete fields are in the API
    types file, which is not part of the sources — modelled from the spec
    as the user-submitted payload (cluster name and version). -/
structure ClusterClaimSpec where
  clusterName : String
  version : String
  deriving DecidableEq

/-- A ClusterClaim: metadata (name, deletion-timestamp flag), spec and
    Status.Phase. -/
structure ClusterClaim where
  name : String
  deletionTimestampIsZero : Bool
  spec : ClusterClaimSpec
  phase : String
  deriving DecidableEq

/-- ClusterClaim.ValidateUpdate(old): permit anything once deletion is
    requested; otherwise reject a spec change when the stored phase is
    Approved, Rejected or ClusterDeleted. -/
def ClusterClaim.ValidateUpdate (r old : ClusterClaim) : Option String :=
  if !r.deletionTimestampIsZero then none
  else if old.phase = "Approved" ∨ old.phase = "Rejected" ∨ old.phase = "ClusterDeleted" then
    if old.spec ≠ r.spec then some "Cannot modify clusterClaim after approval" else none
  else none

/-- ClusterClaim.ValidateDelete: always nil. -/
def ClusterClaim.ValidateDelete (_ : ClusterClaim) : Option String :=
  none

/- ## Basic lemmas about the phase functions -/

/-- A non-empty phase makes CheckValidation an immediate no-op. -/
theorem CheckValidation_skip (env : Env) (cr : ClusterRegistration) (w : World)
    (h : cr.status.phase ≠ "") : CheckValidation env cr w = some (cr, w, none) := by
  unfold CheckValidation
  simp [h]

/-- A phase other than Validated makes CreateKubeconfigSecret an immediate
    no-op. -/
theorem CreateKubeconfigSecret_skip (env : Env) (cr : ClusterRegistration) (w : World)
    (h : cr.status.phase ≠ ClusterRegistrationPhaseValidated) :
    CreateKubeconfigSecret env cr w = some (cr, w, none) := by
  unfold CreateKubeconfigSecret
  simp [h]

/-- A phase other than SecretCreated makes CreateClusterManager an
    immediate no-op. -/
theorem CreateClusterManager_skip (env : Env) (cr : ClusterRegistration) (w : World)
    (h : cr.status.phase ≠ ClusterRegistrationPhaseSecretCreated) :
    CreateClusterManager env cr w = some (cr, w, none) := by
  unfold CreateClusterManager
  simp [h]

/-- CheckValidation never writes to the store, and it changes the object
    only when it starts from the empty phase, moving it to Failed or
    Validated. -/
theorem CheckValidation_out {env : Env} {cr c' : ClusterRegistration} {w w' : World}
    {e : Option GoErr} (h : CheckValidation env cr w = some (c', w', e)) :
    w' = w ∧ (c' = cr ∨ (cr.status.phase = "" ∧
      (c'.status.phase = ClusterRegistrationPhaseFailed ∨
        c'.status.phase = ClusterRegistrationPhaseValidated))) := by
  unfold CheckValidation at h
  split at h
  · simp only [Option.some.injEq, Prod.mk.injEq] at h
    exact ⟨h.2.1.symm, Or.inl h.1.symm⟩
  next hp =>
    simp only [ne_eq, not_not] at hp
    split at h
    · simp only [Option.some.injEq, Prod.mk.injEq] at h
      exact ⟨h.2.1.symm, Or.inr ⟨hp, Or.inl (by rw [← h.1]; rfl)⟩⟩
    · split at h
      · simp only [Option.some.injEq, Prod.mk.injEq] at h
        exact ⟨h.2.1.symm, Or.inr ⟨hp, Or.inl (by rw [← h.1]; rfl)⟩⟩
      · split at h
        · simp only [Option.some.injEq, Prod.mk.injEq] at h
          exact ⟨h.2.1.symm, Or.inr ⟨hp, Or.inl (by rw [← h.1]; rfl)⟩⟩
        · split at h
          · simp only [Option.some.injEq, Prod.mk.injEq] at h
            exact ⟨h.2.1.symm, Or.inl h.1.symm⟩
          · split at h
            · simp only [Option.some.injEq, Prod.mk.injEq] at h
              exact ⟨h.2.1.symm, Or.inr ⟨hp, Or.inl (by rw [← h.1]; rfl)⟩⟩
            · simp only [Option.some.injEq, Prod.mk.injEq] at h
              exact ⟨h.2.1.symm, Or.inr ⟨hp, Or.inr (by rw [← h.1]; rfl)⟩⟩

/-- If CheckValidation leaves the phase empty it changed nothing at all. -/
theorem CheckValidation_empty {env : Env} {cr c' : ClusterRegistration} {w w' : World}
    {e : Option GoErr} (h : CheckValidation env cr w = some (c', w', e))
    (hp : c'.status.phase = "") : c' = cr ∧ w' = w := by
  obtain ⟨hw, hc⟩ := CheckValidation_out h
  rcases hc with hc | hc
  · exact ⟨hc, hw⟩
  · rcases hc.2 with hf | hf <;> rw [hp] at hf <;> simp [ClusterRegistrationPhaseFailed,
      ClusterRegistrationPhaseValidated] at hf

/-- CreateKubeconfigSecret either changes nothing or moves the object to
    SecretCreated. -/
theorem CreateKubeconfigSecret_cases {env : Env} {cr c' : ClusterRegistration}
    {w w' : World} {e : Option GoErr}
    (h : CreateKubeconfigSecret env cr w = some (c', w', e)) :
    (c' = cr ∧ w' = w) ∨
      (cr.status.phase = ClusterRegistrationPhaseValidated ∧
        c'.status.phase = ClusterRegistrationPhaseSecretCreated) := by
  unfold CreateKubeconfigSecret at h
  simp only [ne_eq] at h
  split at h <;> (try split at h) <;> (try split at h) <;> (try split at h) <;>
    (try split at h) <;> (try split at h) <;> (try split at h)
  all_goals simp_all only [ne_eq, not_not, Option.some.injEq, Prod.mk.injEq, setPhase]
  all_goals (try tauto)
  all_goals (obtain ⟨h1, h2, h3⟩ := h; subst h1; simp [setPhase]; try tauto)

/-- Re-running CreateKubeconfigSecret on its own output is a no-op on the
    state. -/
theorem CreateKubeconfigSecret_rerun {env : Env} {cr c' : ClusterRegistration}
    {w w' : World} {e : Option GoErr}
    (h : CreateKubeconfigSecret env cr w = some (c', w', e)) :
    ∃ e2, CreateKubeconfigSecret env c' w' = some (c', w', e2) := by
  rcases CreateKubeconfigSecret_cases h with ⟨hc, hw⟩ | ⟨_, hp⟩
  · subst hc; subst hw
    exact ⟨e, h⟩
  · refine ⟨none, CreateKubeconfigSecret_skip env c' w' ?_⟩
    rw [hp]
    simp [ClusterRegistrationPhaseSecretCreated, ClusterRegistrationPhaseValidated]

/-- CreateClusterManager either leaves the object unchanged or moves it
    to Success from SecretCreated. -/
theorem CreateClusterManager_phase {env : Env} {cr c' : ClusterRegistration}
    {w w' : World} {e : Option GoErr}
    (h : CreateClusterManager env cr w = some (c', w', e)) :
    c' = cr ∨ (cr.status.phase = ClusterRegistrationPhaseSecretCreated ∧
      c'.status.phase = ClusterRegistrationPhaseSuccess) := by
  unfold CreateClusterManager at h
  simp only [ne_eq] at h
  split at h <;> (try split at h) <;> (try split at h) <;> (try split at h) <;>
    (try split at h) <;> (try split at h)
  all_goals simp_all only [ne_eq, not_not, Option.some.injEq, Prod.mk.injEq, setPhase]
  all_goals (try tauto)
  all_goals (obtain ⟨h1, h2, h3⟩ := h; subst h1; simp [setPhase]; try tauto)

/-- Re-running CreateClusterManager on its own output either changes
    nothing, or — exactly when the first call had created the tracking
    resource without reaching Success (failed membership insert) — now
    finds it and advances the phase to Success. -/
theorem CreateClusterManager_rerun {env : Env} {cr c' : ClusterRegistration}
    {w w' : World} {e : Option GoErr}
    (h : CreateClusterManager env cr w = some (c', w', e)) :
    ∃ c2 e2, CreateClusterManager env c' w' = some (c2, w', e2) ∧
      (c2 = c' ∨ (c'.status.phase = ClusterRegistrationPhaseSecretCreated ∧
        c2 = setPhase c' ClusterRegistrationPhaseSuccess)) := by
  have horig := h
  by_cases hp : cr.status.phase = ClusterRegistrationPhaseSecretCreated
  · unfold CreateClusterManager at h
    rw [if_neg (not_not_intro hp)] at h
    cases hf : findHttps (rawDecode env cr.spec.kubeConfig) with
    | none => simp [hf] at h
    | some m =>
      simp only [hf] at h
      by_cases hg : env.getClmErr = true
      · rw [if_pos hg] at h
        simp only [Option.some.injEq, Prod.mk.injEq] at h
        obtain ⟨h1, h2, h3⟩ := h
        subst h1; subst h2
        exact ⟨cr, e, horig, Or.inl rfl⟩
      · rw [if_neg hg] at h
        cases hc : findClm w cr.nsName cr.spec.clusterName with
        | some clmF =>
          simp only [hc, Option.some.injEq, Prod.mk.injEq] at h
          obtain ⟨h1, h2, h3⟩ := h
          subst h1; subst h2
          refine ⟨setPhase cr ClusterRegistrationPhaseSuccess, none, ?_, Or.inl rfl⟩
          refine CreateClusterManager_skip env _ w ?_
          simp [setPhase, ClusterRegistrationPhaseSuccess, ClusterRegistrationPhaseSecretCreated]
        | none =>
          simp only [hc] at h
          by_cases hcc : env.createClmErr = true
          · rw [if_pos hcc] at h
            simp only [Option.some.injEq, Prod.mk.injEq] at h
            obtain ⟨h1, h2, h3⟩ := h
            subst h1; subst h2
            exact ⟨cr, e, horig, Or.inl rfl⟩
          · rw [if_neg hcc] at h
            by_cases hi : env.insertErr = true
            · rw [if_pos hi] at h
              simp only [Option.some.injEq, Prod.mk.injEq] at h
              obtain ⟨h1, h2, h3⟩ := h
              subst h1; subst h2
              refine ⟨setPhase cr ClusterRegistrationPhaseSuccess, none, ?_, Or.inr ⟨hp, rfl⟩⟩
              unfold CreateClusterManager
              rw [if_neg (not_not_intro hp)]
              simp only [hf]
              rw [if_neg hg]
              simp [findClm, List.find?]
            · rw [if_neg hi] at h
              simp only [Option.some.injEq, Prod.mk.injEq] at h
              obtain ⟨h1, h2, h3⟩ := h
              subst h1; subst h2
              refine ⟨setPhase cr ClusterRegistrationPhaseSuccess, none, ?_, Or.inl rfl⟩
              refine CreateClusterManager_skip env _ _ ?_
              simp [setPhase, ClusterRegistrationPhaseSuccess, ClusterRegistrationPhaseSecretCreated]
  · rw [CreateClusterManager_skip env cr w hp] at h
    simp only [Option.some.injEq, Prod.mk.injEq] at h
    obtain ⟨h1, h2, h3⟩ := h
    subst h1; subst h2
    exact ⟨cr, e, horig, Or.inl rfl⟩

/- ## Shared concrete fixtures -/

/-- The empty object store. -/
def wEmpty : World :=
  { clms := [], secrets := [], clusterRegistrations := [], members := [] }

/-- A well-formed parsed kubeconfig fixture. -/
def kcFix : KubeConfigFile :=
  { currentContext := "ctx", contexts := [("ctx", "cl")],
    clusters := [("cl", "https://api.example")] }

/-- An environment in which every library call and API call succeeds. -/
def envOk : Env :=
  { decodeB64 := fun s => if s == "blob" then some "cfg https://api.example yaml" else none
    decodeB64Trunc := fun _ => ""
    getRemoteClientOk := fun _ => true
    listNodesErr := fun _ => false
    listNodesItemsNil := fun _ => false
    loadKubeConfig := fun s => if s == "cfg https://api.example yaml" then some kcFix else none
    uriToSecretName := fun s => some ("cluster-" ++ s)
    hcDomain := "hc.example"
    getClmErr := false, getSecretErr := false, getClrErr := false
    createSecretErr := false, createClmErr := false, insertErr := false
    updateStatusErr := false, patchErr := false }

/-- A fresh onboarding request for cluster "prod" in namespace "ns". -/
def crProd : ClusterRegistration :=
  { name := "regP", nsName := "ns", annotations := [("creator", "alice")],
    spec := { clusterName := "prod", kubeConfig := "blob" },
    status := { phase := "", reason := "" } }

/-- A pre-existing tracking resource named "prod" in namespace "ns". -/
def clmProd : ClusterManager :=
  { name := "prod", nsName := "ns", annotations := [],
    labels := [(LabelKeyClmClusterType, ClusterTypeRegistered), (LabelKeyClmParent, "regOld")],
    controlPlaneEndpoint := "" }

/-- A request already in the Failed phase. -/
def crFailedFix : ClusterRegistration :=
  { crProd with status := { phase := "Failed", reason := "InvalidKubeconfig" } }

/-- envOk with a failing membership-table insert. -/
def envIns : Env := { envOk with insertErr := true }

/-- envOk with an undecodable credential. -/
def envBadDecode : Env := { envOk with decodeB64 := fun _ => none }

/- ## C2 -/

/-- C2 (amended): running the three-phase pipeline a second time in an
    unchanged environment writes nothing to the store and reproduces the
    status of the first run — except when the first run created the tracking
    resource and then failed the membership insert, in which case the
    second run advances the phase from SecretCreated to Success. -/
theorem pipeline_second_run {env : Env} {c0 c1 : ClusterRegistration}
    {w0 w1 : World} {es1 : List GoErr}
    (h : reconcile env c0 w0 = some (c1, w1, es1)) :
    ∃ c2 es2, reconcile env c1 w1 = some (c2, w1, es2) ∧
      (c2.status = c1.status ∨
        (c1.status.phase = ClusterRegistrationPhaseSecretCreated ∧
          c2 = setPhase c1 ClusterRegistrationPhaseSuccess)) := by
  have horig := h
  unfold reconcile at h
  cases h1 : CheckValidation env c0 w0 with
  | none => rw [h1] at h; exact absurd h (by simp)
  | some t1 =>
    obtain ⟨a, wa, e1⟩ := t1
    simp only [h1] at h
    cases h2 : CreateKubeconfigSecret env a wa with
    | none => simp only [h2] at h; exact absurd h (by simp)
    | some t2 =>
      obtain ⟨b, wb, e2⟩ := t2
      simp only [h2] at h
      cases h3 : CreateClusterManager env b wb with
      | none => simp only [h3] at h; exact absurd h (by simp)
      | some t3 =>
        obtain ⟨c, wc, e3⟩ := t3
        simp only [h3] at h
        simp only [Option.some.injEq, Prod.mk.injEq] at h
        obtain ⟨hc, hw, he⟩ := h
        subst hc; subst hw
        by_cases hA : c.status.phase = ""
        · -- the whole first run left the object unchanged
          have hbp : b.status.phase = "" := by
            rcases CreateClusterManager_phase h3 with hcb | ⟨_, hsc⟩
            · rw [← hcb]; exact hA
            · rw [hA] at hsc; exact absurd hsc (by decide)
          have h3eq := h3
          rw [CreateClusterManager_skip env b wb (by rw [hbp]; decide)] at h3eq
          simp only [Option.some.injEq, Prod.mk.injEq] at h3eq
          obtain ⟨hbc, hwbc, _⟩ := h3eq
          have hap : a.status.phase = "" := by
            rcases CreateKubeconfigSecret_cases h2 with ⟨hba, _⟩ | ⟨_, hbs⟩
            · rw [← hba]; exact hbp
            · rw [hbp] at hbs; exact absurd hbs (by decide)
          have h2eq := h2
          rw [CreateKubeconfigSecret_skip env a wa (by rw [hap]; decide)] at h2eq
          simp only [Option.some.injEq, Prod.mk.injEq] at h2eq
          obtain ⟨hab, hwab, _⟩ := h2eq
          obtain ⟨hac0, hwaw0⟩ := CheckValidation_empty h1 hap
          have hcc0 : c = c0 := by rw [← hbc, ← hab]; exact hac0
          have hwcw0 : wc = w0 := by rw [← hwbc, ← hwab]; exact hwaw0
          refine ⟨c, es1, ?_, Or.inl rfl⟩
          rw [hcc0, hwcw0] at horig ⊢
          exact horig
        · by_cases hV : c.status.phase = ClusterRegistrationPhaseValidated
          · -- the third phase was a skip; the re-run repeats the second phase
            have hbp : b.status.phase = ClusterRegistrationPhaseValidated := by
              rcases CreateClusterManager_phase h3 with hcb | ⟨_, hsc⟩
              · rw [← hcb]; exact hV
              · rw [hV] at hsc; exact absurd hsc (by decide)
            have h3s := CreateClusterManager_skip env b wb (by rw [hbp]; decide)
            have h3eq := h3
            rw [h3s] at h3eq
            simp only [Option.some.injEq, Prod.mk.injEq] at h3eq
            obtain ⟨hbc, hwbc, _⟩ := h3eq
            obtain ⟨e2x, hr2⟩ := CreateKubeconfigSecret_rerun h2
            refine ⟨c, ([none, e2x, none].filterMap id : List GoErr), ?_, Or.inl rfl⟩
            rw [← hbc, ← hwbc]
            have r2p1 : CheckValidation env b wb = some (b, wb, none) :=
              CheckValidation_skip env b wb (by rw [hbp]; decide)
            simp only [reconcile, r2p1, hr2, h3s]
          · -- the second phase skips; the third re-runs
            have r2p1 : CheckValidation env c wc = some (c, wc, none) :=
              CheckValidation_skip env c wc hA
            have r2p2 : CreateKubeconfigSecret env c wc = some (c, wc, none) :=
              CreateKubeconfigSecret_skip env c wc hV
            obtain ⟨c2x, e3x, hr3, hdisj⟩ := CreateClusterManager_rerun h3
            refine ⟨c2x, ([none, none, e3x].filterMap id : List GoErr), ?_, ?_⟩
            · simp only [reconcile, r2p1, r2p2, hr3]
            · rcases hdisj with hceq | ⟨hph, hceq⟩
              · exact Or.inl (by rw [hceq])
              · exact Or.inr ⟨hph, hceq⟩

/-- Witness for the C2 theorem at a concrete input. -/
theorem pipeline_second_run_witness :
    ∃ c2 es2, reconcile envOk crFailedFix wEmpty = some (c2, wEmpty, es2) ∧
      (c2.status = crFailedFix.status ∨
        (crFailedFix.status.phase = ClusterRegistrationPhaseSecretCreated ∧
          c2 = setPhase crFailedFix ClusterRegistrationPhaseSuccess)) :=
  @pipeline_second_run envOk crFailedFix crFailedFix wEmpty wEmpty [] (by decide)

/-- C2 counterexample: with a persistently failing membership insert the
    first run ends at SecretCreated (having created the tracking resource)
    while the second run, with no external state change, advances to
    Success — the two statuses differ. -/
theorem pipeline_not_idempotent_counterexample :
    (reconcile envIns crProd wEmpty).map (fun r => r.1.status.phase) =
      some "SecretCreated" ∧
    ((reconcile envIns crProd wEmpty).bind
      (fun r => reconcile envIns r.1 r.2.1)).map (fun r => r.1.status.phase) =
      some "Success" ∧
    (reconcile envIns crProd wEmpty).map (fun r => r.2.1.clms.length) = some 1 := by
  decide

/- ## C5 -/

/-- C5 (amended): once status.phase is Failed the phase pipeline is a
    complete no-op — every phase function returns at its phase gate, so
    the failed phase is never re-attempted (Failed is absorbing). -/
theorem reconcile_failed_noop (env : Env) (c : ClusterRegistration) (w : World)
    (h : c.status.phase = ClusterRegistrationPhaseFailed) :
    reconcile env c w = some (c, w, []) := by
  unfold reconcile
  simp only [CheckValidation_skip env c w (by rw [h]; decide),
    CreateKubeconfigSecret_skip env c w (by rw [h]; decide),
    CreateClusterManager_skip env c w (by rw [h]; decide)]
  rfl

/-- Witness for the C5 theorem at a concrete input. -/
theorem reconcile_failed_noop_witness :
    reconcile envOk crFailedFix wEmpty = some (crFailedFix, wEmpty, []) :=
  reconcile_failed_noop envOk crFailedFix wEmpty rfl

/-- C5 counterexample: a Failed request is never re-attempted even though
    the environment is healthy (the same environment takes a fresh request
    all the way to Success), so a cleared transient cause cannot lead to
    eventual success. -/
theorem failed_absorbing_counterexample :
    reconcile envOk crFailedFix wEmpty = some (crFailedFix, wEmpty, []) ∧
    crFailedFix.status.phase = "Failed" ∧
    (reconcile envOk { crFailedFix with status := { phase := "", reason := "" } }
      wEmpty).map (fun r => r.1.status.phase) = some "Success" := by
  decide

/- ## C4 -/

/-- On a fresh object, a CheckValidation call that records Failed returns a
    non-nil error exactly for the InvalidKubeconfig reason; the
    ClusterNotFound and ClusterNameDuplicated branches return a nil
    error. -/
theorem CheckValidation_fresh {env : Env} {c c' : ClusterRegistration} {w w' : World}
    {e : Option GoErr} (h0 : c.status.phase = "")
    (h : CheckValidation env c w = some (c', w', e))
    (hf : c'.status.phase = ClusterRegistrationPhaseFailed) :
    (c'.status.reason = ClusterRegistrationReasonInvalidKubeconfig ∧ e ≠ none) ∨
    ((c'.status.reason = ClusterRegistrationReasonClusterNotFound ∨
      c'.status.reason = ClusterRegistrationReasonClusterNameDuplicated) ∧ e = none) := by
  unfold CheckValidation at h
  rw [if_neg (not_not_intro h0)] at h
  split at h <;> (try split at h) <;> (try split at h) <;> (try split at h) <;>
    (try split at h)
  all_goals simp_all only [Option.some.injEq, Prod.mk.injEq]
  all_goals (try (exact absurd h0 (by decide)))
  all_goals simp_all [setFailed, setPhase, ClusterRegistrationPhaseFailed,
    ClusterRegistrationPhaseValidated, ClusterRegistrationReasonInvalidKubeconfig,
    ClusterRegistrationReasonClusterNotFound, ClusterRegistrationReasonClusterNameDuplicated]
  all_goals obtain ⟨h1, h2, h3⟩ := h
  all_goals (subst h1; subst h3)
  all_goals simp_all

/-- C4 (amended): a reconcile on a fresh object that ends Failed returns a
    non-nil aggregated error exactly when the reason is InvalidKubeconfig;
    the ClusterNotFound and ClusterNameDuplicated failures return nil, so
    only the first kind is retried by the scheduler. -/
theorem failed_reason_error_correlation {env : Env} {c c' : ClusterRegistration}
    {w w' : World} {errs : List GoErr}
    (h0 : c.status.phase = "")
    (h : reconcile env c w = some (c', w', errs))
    (hf : c'.status.phase = ClusterRegistrationPhaseFailed) :
    (c'.status.reason = ClusterRegistrationReasonInvalidKubeconfig → errs ≠ []) ∧
    ((c'.status.reason = ClusterRegistrationReasonClusterNotFound ∨
      c'.status.reason = ClusterRegistrationReasonClusterNameDuplicated) → errs = []) := by
  unfold reconcile at h
  cases h1 : CheckValidation env c w with
  | none => rw [h1] at h; exact absurd h (by simp)
  | some t1 =>
    obtain ⟨a, wa, e1⟩ := t1
    simp only [h1] at h
    cases h2 : CreateKubeconfigSecret env a wa with
    | none => simp only [h2] at h; exact absurd h (by simp)
    | some t2 =>
      obtain ⟨b, wb, e2⟩ := t2
      simp only [h2] at h
      cases h3 : CreateClusterManager env b wb with
      | none => simp only [h3] at h; exact absurd h (by simp)
      | some t3 =>
        obtain ⟨d, wd, e3⟩ := t3
        simp only [h3] at h
        simp only [Option.some.injEq, Prod.mk.injEq] at h
        obtain ⟨hd, hw, he⟩ := h
        subst hd; subst hw
        have hbd : d = b := by
          rcases CreateClusterManager_phase h3 with hcb | ⟨_, hsc⟩
          · exact hcb
          · rw [hsc] at hf; exact absurd hf (by decide)
        have hab : b = a := by
          rcases CreateKubeconfigSecret_cases h2 with ⟨hba, _⟩ | ⟨_, hbs⟩
          · exact hba
          · have hbf : b.status.phase = ClusterRegistrationPhaseFailed := by
              rw [← hbd]; exact hf
            rw [hbf] at hbs; exact absurd hbs (by decide)
        have haf : a.status.phase = ClusterRegistrationPhaseFailed := by
          rw [← hab, ← hbd]; exact hf
        have h2s := CreateKubeconfigSecret_skip env a wa (by rw [haf]; decide)
        rw [h2s] at h2
        simp only [Option.some.injEq, Prod.mk.injEq] at h2
        obtain ⟨_, hwab, he2⟩ := h2
        have h3s := CreateClusterManager_skip env b wb (by rw [hab, haf]; decide)
        rw [h3s] at h3
        simp only [Option.some.injEq, Prod.mk.injEq] at h3
        obtain ⟨_, _, he3⟩ := h3
        rw [← he2] at he
        rw [← he3] at he
        have hdr : d.status.reason = a.status.reason := by rw [hbd, hab]
        rcases CheckValidation_fresh h0 h1 haf with ⟨hik, hene⟩ | ⟨hor, hen⟩
        · constructor
          · intro _
            cases e1 with
            | none => exact absurd rfl hene
            | some x => rw [← he]; simp
          · intro hcon
            rw [hdr, hik] at hcon
            rcases hcon with hcon | hcon <;> exact absurd hcon (by decide)
        · constructor
          · intro hcon
            rw [hdr] at hcon
            rcases hor with h' | h' <;> rw [h'] at hcon <;> exact absurd hcon (by decide)
          · intro _
            rw [hen] at he
            rw [← he]
            rfl

/-- Witness for the C4 theorem at a concrete input (undecodable
    credential). -/
theorem failed_reason_error_correlation_witness :
    ((setFailed crProd ClusterRegistrationReasonInvalidKubeconfig).status.reason =
        ClusterRegistrationReasonInvalidKubeconfig →
      ([GoErr.decodeError] : List GoErr) ≠ []) ∧
    (((setFailed crProd ClusterRegistrationReasonInvalidKubeconfig).status.reason =
        ClusterRegistrationReasonClusterNotFound ∨
      (setFailed crProd ClusterRegistrationReasonInvalidKubeconfig).status.reason =
        ClusterRegistrationReasonClusterNameDuplicated) →
      ([GoErr.decodeError] : List GoErr) = []) :=
  @failed_reason_error_correlation envBadDecode crProd
    (setFailed crProd ClusterRegistrationReasonInvalidKubeconfig) wEmpty wEmpty
    [GoErr.decodeError] rfl (by decide) (by decide)

/-- C4 counterexample: a reconcile that records Failed with reason
    ClusterNameDuplicated returns an empty error aggregate — the failure is
    not surfaced to the scheduler. -/
theorem failed_without_error_counterexample :
    reconcile envOk crProd { wEmpty with clms := [clmProd] } =
      some (setFailed crProd ClusterRegistrationReasonClusterNameDuplicated,
        { wEmpty with clms := [clmProd] }, []) ∧
    (setFailed crProd ClusterRegistrationReasonClusterNameDuplicated).status =
      { phase := "Failed", reason := "ClusterNameDuplicated" } := by
  decide

/- ## C3 -/

/-- C3: with a tracking resource "prod" already present in namespace "ns",
    reconciling a fresh request for clusterName "prod" in "ns" with a
    decodable, reachable credential ends at Failed/ClusterNameDuplicated,
    changes nothing in the store (no second tracking resource), and the
    later phases never run their bodies. -/
theorem duplicate_clusterName_rejected :
    reconcile envOk crProd { wEmpty with clms := [clmProd] } =
      some ({ crProd with status :=
        { phase := "Failed", reason := "ClusterNameDuplicated" } },
        { wEmpty with clms := [clmProd] }, []) ∧
    ({ wEmpty with clms := [clmProd] } : World).clms.length = 1 := by
  decide

/- ## C1 -/

/-- The phase enum of the spec. -/
def enumPhase (p : String) : Prop :=
  p = "" ∨ p = "Validated" ∨ p = "SecretCreated" ∨ p = "Success" ∨
    p = "Failed" ∨ p = "Deleted"

/-- Rank of the forward-progress phases. -/
def progRank (p : String) : Nat :=
  if p = "Validated" then 1
  else if p = "SecretCreated" then 2
  else if p = "Success" then 3
  else 0

/-- The terminal absorbing phases. -/
def terminalPhase (p : String) : Prop := p = "Failed" ∨ p = "Deleted"

/-- A phase transition that never moves backward: it stays, moves strictly
    forward in '' < Validated < SecretCreated < Success, or enters a
    terminal phase. -/
def phaseForwardLe (p q : String) : Prop :=
  q = "Failed" ∨ q = "Deleted" ∨ p = q ∨ progRank p < progRank q

/-- The view the subject object has of one invocation of the cascade mapping
    function: store the subject, run the mapping for the deleted
    ClusterManager, and read the subject back. -/
def cascadeStep (env : Env) (clm : ClusterManager) (c : ClusterRegistration)
    (w : World) : ClusterRegistration × World :=
  let w2 := (requeueClusterRegistrationsForClusterManager env clm (storeCR c w)).1
  ((findCR w2 c.nsName c.name).getD c, w2)

/-- One reconcile-relevant invocation on the subject object: a phase
    function, the deferred phase summary, or the cascade mapping triggered
    by a ClusterManager deletion. -/
inductive StepRel (env : Env) :
    ClusterRegistration × World → ClusterRegistration × World → Prop
  | checkValidation {c : ClusterRegistration} {w : World}
      {c' : ClusterRegistration} {w' : World} {e : Option GoErr} :
      CheckValidation env c w = some (c', w', e) → StepRel env (c, w) (c', w')
  | createKubeconfigSecret {c : ClusterRegistration} {w : World}
      {c' : ClusterRegistration} {w' : World} {e : Option GoErr} :
      CreateKubeconfigSecret env c w = some (c', w', e) → StepRel env (c, w) (c', w')
  | createClusterManager {c : ClusterRegistration} {w : World}
      {c' : ClusterRegistration} {w' : World} {e : Option GoErr} :
      CreateClusterManager env c w = some (c', w', e) → StepRel env (c, w) (c', w')
  | phaseSummary {c : ClusterRegistration} {w : World} :
      StepRel env (c, w) (reconcilePhase c, w)
  | cascade {c : ClusterRegistration} {w : World} (clm : ClusterManager) :
      StepRel env (c, w) (cascadeStep env clm c w)

/-- Looking up the key just stored returns the stored object. -/
theorem findCR_storeCR_key {x : ClusterRegistration} {w : World} {ns nm : String}
    (h : (x.nsName == ns && x.name == nm) = true) :
    findCR (storeCR x w) ns nm = some x := by
  simp only [findCR, storeCR]
  exact List.find?_cons_of_pos _ h

/-- Looking up the own key of the subject after storing it. -/
theorem findCR_storeCR_self (c : ClusterRegistration) (w : World) :
    findCR (storeCR c w) c.nsName c.name = some c :=
  findCR_storeCR_key (by simp)

/-- Storing at a different key leaves the subject entry visible. -/
theorem findCR_storeCR_other {x c : ClusterRegistration} {w : World}
    (hk : ¬(x.nsName = c.nsName ∧ x.name = c.name)) :
    findCR (storeCR x (storeCR c w)) c.nsName c.name = some c := by
  simp only [findCR, storeCR]
  rw [List.find?_cons_of_neg _ (by simp; intro h1 h2; exact hk ⟨h1, h2⟩)]
  rw [List.filter_cons_of_pos (by
    simp
    by_cases h1 : c.nsName = x.nsName
    · right; intro h2; exact hk ⟨h1.symm, h2.symm⟩
    · left; exact h1)]
  exact List.find?_cons_of_pos _ (by simp)

/-- A parent found in the store after the subject was stored, at the
    own key of the subject, is the subject. -/
theorem findCR_storeCR_eq_subject {c clr : ClusterRegistration} {w : World}
    {ns pn : String}
    (hfind : findCR (storeCR c w) ns pn = some clr)
    (hk : clr.nsName = c.nsName ∧ clr.name = c.name) :
    clr = c := by
  simp only [findCR, storeCR] at hfind
  rw [List.find?_cons] at hfind
  by_cases hpc : (c.nsName == ns && c.name == pn) = true
  · simp only [hpc] at hfind
    exact (Option.some.inj hfind).symm
  · have hpc2 : (c.nsName == ns && c.name == pn) = false := by
      simpa using hpc
    simp only [hpc2] at hfind
    have hmem := List.mem_of_find?_eq_some hfind
    rw [List.mem_filter] at hmem
    have h2 := hmem.2
    simp [hk.1, hk.2] at h2

/-- The cascade mapping either leaves the subject unchanged or, exactly
    when the subject is the looked-up parent and its phase is Success,
    moves it to Deleted with reason "cluster is deleted". -/
theorem cascadeStep_subject (env : Env) (clm : ClusterManager)
    (c : ClusterRegistration) (w : World) :
    (cascadeStep env clm c w).1 = c ∨
      (c.status.phase = "Success" ∧
        (cascadeStep env clm c w).1 =
          { c with status := { phase := "Deleted", reason := "cluster is deleted" } }) := by
  simp only [cascadeStep, requeueClusterRegistrationsForClusterManager]
  by_cases hg : env.getClrErr = true
  · rw [if_pos hg]
    rw [findCR_storeCR_self]
    exact Or.inl rfl
  · rw [if_neg hg]
    cases hfind : findCR (storeCR c w) clm.nsName
        ((lookupStr clm.labels LabelKeyClmParent).getD "") with
    | none =>
      simp only [hfind]
      rw [findCR_storeCR_self]
      exact Or.inl rfl
    | some clr =>
      simp only [hfind]
      by_cases hph : clr.status.phase = "Success"
      · rw [if_neg (not_not_intro hph)]
        by_cases hu : env.updateStatusErr = true
        · rw [if_pos hu]
          rw [findCR_storeCR_self]
          exact Or.inl rfl
        · rw [if_neg hu]
          by_cases hk : clr.nsName = c.nsName ∧ clr.name = c.name
          · have hceq : clr = c := findCR_storeCR_eq_subject hfind hk
            subst hceq
            right
            refine ⟨hph, ?_⟩
            rw [findCR_storeCR_key (by simp)]
            rfl
          · left
            rw [findCR_storeCR_other (by simpa using hk)]
            rfl
      · rw [if_pos hph]
        rw [findCR_storeCR_self]
        exact Or.inl rfl

/-- In any enum phase the deferred summary is the identity (its guard
    compares with the literal "validated", which no enum phase equals). -/
theorem reconcilePhase_enum {c : ClusterRegistration}
    (he : enumPhase c.status.phase) : reconcilePhase c = c := by
  unfold reconcilePhase
  rcases he with h | h | h | h | h | h <;> simp [h]

instance (p : String) : Decidable (enumPhase p) := by
  unfold enumPhase; infer_instance

instance (p : String) : Decidable (terminalPhase p) := by
  unfold terminalPhase; infer_instance

instance (p q : String) : Decidable (phaseForwardLe p q) := by
  unfold phaseForwardLe; infer_instance

/-- Single-step phase preservation: enum membership, forward movement, and
    absorption of the terminal phases. -/
theorem StepRel_phase {env : Env} {s t : ClusterRegistration × World}
    (h : StepRel env s t) (he : enumPhase s.1.status.phase) :
    enumPhase t.1.status.phase ∧ phaseForwardLe s.1.status.phase t.1.status.phase ∧
      (terminalPhase s.1.status.phase → t.1.status.phase = s.1.status.phase) := by
  cases h with
  | checkValidation hcv =>
    obtain ⟨hw, hc⟩ := CheckValidation_out hcv
    rcases hc with hc | ⟨hp0, hor⟩
    · subst hc
      exact ⟨he, Or.inr (Or.inr (Or.inl rfl)), fun _ => rfl⟩
    · rcases hor with h' | h' <;>
        exact ⟨by rw [h']; decide, by rw [hp0, h']; decide, by rw [hp0, h']; decide⟩
  | createKubeconfigSecret hcks =>
    rcases CreateKubeconfigSecret_cases hcks with ⟨hc, hw⟩ | ⟨hp, hp'⟩
    · subst hc
      exact ⟨he, Or.inr (Or.inr (Or.inl rfl)), fun _ => rfl⟩
    · exact ⟨by rw [hp']; decide, by rw [hp, hp']; decide, by rw [hp, hp']; decide⟩
  | createClusterManager hccm =>
    rcases CreateClusterManager_phase hccm with hc | ⟨hp, hp'⟩
    · subst hc
      exact ⟨he, Or.inr (Or.inr (Or.inl rfl)), fun _ => rfl⟩
    · exact ⟨by rw [hp']; decide, by rw [hp, hp']; decide, by rw [hp, hp']; decide⟩
  | phaseSummary =>
    rw [reconcilePhase_enum he]
    exact ⟨he, Or.inr (Or.inr (Or.inl rfl)), fun _ => rfl⟩
  | cascade clm =>
    rename_i cX wX
    rcases cascadeStep_subject env clm cX wX with hc | ⟨hph, hc⟩
    · rw [hc]
      exact ⟨he, Or.inr (Or.inr (Or.inl rfl)), fun _ => rfl⟩
    · have hphase : (cascadeStep env clm cX wX).1.status.phase = "Deleted" := by
        rw [hc]
      refine ⟨?_, ?_, ?_⟩
      · rw [hphase]; decide
      · rw [hphase, hph]; decide
      · rw [hphase, hph]; decide

/-- phaseForwardLe composes along a step whose source-terminal phases are
    absorbed. -/
theorem phaseForwardLe_trans {p q r : String}
    (h1 : phaseForwardLe p q) (h2 : phaseForwardLe q r)
    (habs : terminalPhase q → r = q) : phaseForwardLe p r := by
  rcases h2 with h2 | h2 | h2 | h2
  · exact Or.inl h2
  · exact Or.inr (Or.inl h2)
  · rw [← h2]; exact h1
  · rcases h1 with h1 | h1 | h1 | h1
    · rw [habs (Or.inl h1)] at h2
      exact absurd h2 (lt_irrefl _)
    · rw [habs (Or.inr h1)] at h2
      exact absurd h2 (lt_irrefl _)
    · rw [h1]
      exact Or.inr (Or.inr (Or.inr h2))
    · exact Or.inr (Or.inr (Or.inr (h1.trans h2)))

/-- Multi-step phase preservation along any sequence of invocations. -/
theorem StepRel_rtg_phase {env : Env} {s t : ClusterRegistration × World}
    (h : Relation.ReflTransGen (StepRel env) s t)
    (he : enumPhase s.1.status.phase) :
    enumPhase t.1.status.phase ∧ phaseForwardLe s.1.status.phase t.1.status.phase ∧
      (terminalPhase s.1.status.phase → t.1.status.phase = s.1.status.phase) := by
  induction h with
  | refl => exact ⟨he, Or.inr (Or.inr (Or.inl rfl)), fun _ => rfl⟩
  | tail hab hbc ih =>
    obtain ⟨henb, hleab, habsab⟩ := ih
    obtain ⟨henc, hlebc, habsbc⟩ := StepRel_phase hbc henb
    refine ⟨henc, phaseForwardLe_trans hleab hlebc habsbc, ?_⟩
    intro ht
    have hba := habsab ht
    have htc := habsbc (by rw [hba]; exact ht)
    rw [htc, hba]

/-- C1: over any sequence of reconcile invocations — the three phase
    functions, the deferred phase summary, and the cascade mapping — the
    status.phase of the subject never moves backward in the order
    '' < Validated < SecretCreated < Success; the only exceptions are
    transitions into Failed/Deleted, and those two phases are absorbing. -/
theorem phase_monotonic {env : Env} {s t : ClusterRegistration × World}
    (h : Relation.ReflTransGen (StepRel env) s t)
    (he : enumPhase s.1.status.phase) :
    phaseForwardLe s.1.status.phase t.1.status.phase ∧
      (terminalPhase s.1.status.phase → t.1.status.phase = s.1.status.phase) :=
  ⟨(StepRel_rtg_phase h he).2.1, (StepRel_rtg_phase h he).2.2⟩

/-- Witness for the C1 theorem: a concrete CheckValidation step from the
    empty phase to Validated. -/
theorem phase_monotonic_witness :
    phaseForwardLe crProd.status.phase
        (setPhase crProd ClusterRegistrationPhaseValidated).status.phase ∧
      (terminalPhase crProd.status.phase →
        (setPhase crProd ClusterRegistrationPhaseValidated).status.phase =
          crProd.status.phase) :=
  phase_monotonic
    (Relation.ReflTransGen.single
      (@StepRel.checkValidation envOk crProd wEmpty
        (setPhase crProd ClusterRegistrationPhaseValidated) wEmpty none (by decide)))
    (by decide)

/- ## C6 -/

/-- C6: on deletion of a registered ClusterManager, the mapping function
    updates the parent (located via the parent label) to Deleted with
    reason "cluster is deleted" iff the parent exists and its phase is
    Success; otherwise the store is left unchanged.  (Transient get and
    update failures are excluded by hypothesis.) -/
theorem cascade_delete_iff (env : Env) (clm : ClusterManager) (w : World)
    (_hreg : deleteEventTriggers clm = true)
    (hget : env.getClrErr = false) (hupd : env.updateStatusErr = false) :
    (findCR w clm.nsName ((lookupStr clm.labels LabelKeyClmParent).getD "") = none →
      requeueClusterRegistrationsForClusterManager env clm w = (w, [])) ∧
    (∀ clr, findCR w clm.nsName ((lookupStr clm.labels LabelKeyClmParent).getD "") =
        some clr →
      (clr.status.phase ≠ "Success" →
        requeueClusterRegistrationsForClusterManager env clm w = (w, [])) ∧
      (clr.status.phase = "Success" →
        requeueClusterRegistrationsForClusterManager env clm w =
          (storeCR { clr with status :=
            { phase := "Deleted", reason := "cluster is deleted" } } w, []))) := by
  refine ⟨?_, fun clr hs => ⟨?_, ?_⟩⟩
  · intro hn
    simp [requeueClusterRegistrationsForClusterManager, hget, hn]
  · intro hph
    simp [requeueClusterRegistrationsForClusterManager, hget, hs, hph]
  · intro hph
    simp [requeueClusterRegistrationsForClusterManager, hget, hs, hph, hupd]

/-- A Success-phase parent for the C6 witness. -/
def crParent6 : ClusterRegistration :=
  { name := "reg6", nsName := "ns6", annotations := [],
    spec := { clusterName := "c6", kubeConfig := "blob" },
    status := { phase := "Success", reason := "" } }

/-- The deleted registered ClusterManager for the C6 witness. -/
def clm6 : ClusterManager :=
  { name := "c6", nsName := "ns6", annotations := [],
    labels := [(LabelKeyClmClusterType, ClusterTypeRegistered),
      (LabelKeyClmParent, "reg6")],
    controlPlaneEndpoint := "" }

/-- The store for the C6 witness. -/
def w6 : World := { wEmpty with clusterRegistrations := [crParent6] }

/-- Witness for the C6 theorem at a concrete input. -/
theorem cascade_delete_iff_witness :
    (findCR w6 clm6.nsName ((lookupStr clm6.labels LabelKeyClmParent).getD "") = none →
      requeueClusterRegistrationsForClusterManager envOk clm6 w6 = (w6, [])) ∧
    (∀ clr, findCR w6 clm6.nsName ((lookupStr clm6.labels LabelKeyClmParent).getD "") =
        some clr →
      (clr.status.phase ≠ "Success" →
        requeueClusterRegistrationsForClusterManager envOk clm6 w6 = (w6, [])) ∧
      (clr.status.phase = "Success" →
        requeueClusterRegistrationsForClusterManager envOk clm6 w6 =
          (storeCR { clr with status :=
            { phase := "Deleted", reason := "cluster is deleted" } } w6, []))) :=
  cascade_delete_iff envOk clm6 w6 (by decide) rfl rfl

/- ## C7 -/

/-- C7: with a loadable kubeconfig and a resolvable server entry, one
    invocation either no-ops (tracking resource absent, or endpoint equals
    the server ignoring case, with nil error), or patches the recorded
    endpoint to the server URI on a case-insensitive mismatch. -/
theorem endpoint_update (env : Env) (sec : Secret) (w : World)
    (kc : KubeConfigFile) (server : String)
    (hload : env.loadKubeConfig sec.value = some kc)
    (hsrv : serverLookup kc = some server)
    (hget : env.getClmErr = false) (hpatch : env.patchErr = false) :
    (findClm w sec.nsName (goSplitHead sec.name KubeconfigSuffix) = none →
      UpdateClusterManagerControlPlaneEndpoint env sec w = some (w, none)) ∧
    (∀ clm, findClm w sec.nsName (goSplitHead sec.name KubeconfigSuffix) = some clm →
      (goEqualFold clm.controlPlaneEndpoint server = true →
        UpdateClusterManagerControlPlaneEndpoint env sec w = some (w, none)) ∧
      (goEqualFold clm.controlPlaneEndpoint server = false →
        UpdateClusterManagerControlPlaneEndpoint env sec w =
          some (storeClm { clm with controlPlaneEndpoint := server } w, none))) := by
  refine ⟨?_, fun clm hfind => ⟨?_, ?_⟩⟩
  · intro hn
    simp [UpdateClusterManagerControlPlaneEndpoint, hload, hget, hn]
  · intro heq
    simp [UpdateClusterManagerControlPlaneEndpoint, hload, hget, hfind, hsrv, heq]
  · intro hne
    simp [UpdateClusterManagerControlPlaneEndpoint, hload, hget, hfind, hsrv, hne,
      hpatch]

/-- The credential secret for the C7 witness. -/
def sec7 : Secret :=
  { name := "edge-kubeconfig", nsName := "ns7", annotations := [],
    finalizers := [], value := "cfg7" }

/-- A kubeconfig pointing at a new server URI for the C7 witness. -/
def kc7 : KubeConfigFile :=
  { currentContext := "ctx", contexts := [("ctx", "cl")],
    clusters := [("cl", "https://New.Example")] }

/-- A tracking resource with a stale recorded endpoint for the C7
    witness. -/
def clm7 : ClusterManager :=
  { name := "edge", nsName := "ns7", annotations := [], labels := [],
    controlPlaneEndpoint := "https://old.example" }

/-- The environment for the C7 witness. -/
def env7 : Env :=
  { envOk with loadKubeConfig := fun s => if s == "cfg7" then some kc7 else none }

/-- The store for the C7 witness. -/
def w7 : World := { wEmpty with clms := [clm7] }

/-- Witness for the C7 theorem at a concrete input. -/
theorem endpoint_update_witness :
    (findClm w7 sec7.nsName (goSplitHead sec7.name KubeconfigSuffix) = none →
      UpdateClusterManagerControlPlaneEndpoint env7 sec7 w7 = some (w7, none)) ∧
    (∀ clm, findClm w7 sec7.nsName (goSplitHead sec7.name KubeconfigSuffix) = some clm →
      (goEqualFold clm.controlPlaneEndpoint "https://New.Example" = true →
        UpdateClusterManagerControlPlaneEndpoint env7 sec7 w7 = some (w7, none)) ∧
      (goEqualFold clm.controlPlaneEndpoint "https://New.Example" = false →
        UpdateClusterManagerControlPlaneEndpoint env7 sec7 w7 =
          some (storeClm { clm with controlPlaneEndpoint := "https://New.Example" } w7,
            none))) :=
  endpoint_update env7 sec7 w7 kc7 "https://New.Example" (by decide) (by decide) rfl rfl

/- ## C8 -/

/-- C8: ValidateUpdate returns a non-nil error iff the new object carries
    no deletion timestamp, the stored phase is Approved, Rejected or
    ClusterDeleted, and the spec payload differs (so metadata-only changes
    are accepted); ValidateDelete always returns nil. -/
theorem validate_update_delete (r old : ClusterClaim) :
    ((ClusterClaim.ValidateUpdate r old).isSome ↔
      (r.deletionTimestampIsZero = true ∧
        (old.phase = "Approved" ∨ old.phase = "Rejected" ∨ old.phase = "ClusterDeleted") ∧
        old.spec ≠ r.spec)) ∧
    ClusterClaim.ValidateDelete r = none := by
  refine ⟨?_, rfl⟩
  unfold ClusterClaim.ValidateUpdate
  by_cases hd : r.deletionTimestampIsZero = true <;>
    by_cases hph : (old.phase = "Approved" ∨ old.phase = "Rejected" ∨
      old.phase = "ClusterDeleted") <;>
      by_cases hsp : old.spec = r.spec <;>
        simp [hd, hph, hsp]

/- ## C9 -/

/-- C9 (amended): the deferred patch failure of the main reconcile is
    surfaced as the returned error of the invocation, while the cascade
    mapping status-update failure is swallowed: the mapping returns an
    unchanged store and an empty request list. -/
theorem status_write_surfacing (env : Env) (ns nm : String) (w : World)
    (cr : ClusterRegistration) (rr : ClusterRegistration × World × List GoErr)
    (hget : env.getClrErr = false)
    (hfind : findCR w ns nm = some cr)
    (hrun : reconcile env cr w = some rr)
    (hpatch : env.patchErr = true) :
    Reconcile env ns nm w = some (rr.2.1, some GoErr.patchError) ∧
    (∀ clm w2, env.updateStatusErr = true →
      requeueClusterRegistrationsForClusterManager env clm w2 = (w2, [])) := by
  constructor
  · obtain ⟨c1, w1, errs⟩ := rr
    simp [Reconcile, hget, hfind, hrun, hpatch]
  · intro clm w2 hupd
    unfold requeueClusterRegistrationsForClusterManager
    by_cases hg : env.getClrErr = true
    · rw [if_pos hg]
    · rw [if_neg hg]
      cases hf : findCR w2 clm.nsName ((lookupStr clm.labels LabelKeyClmParent).getD "") with
      | none => simp [hf]
      | some clr =>
        simp only [hf]
        by_cases hph : clr.status.phase = "Success"
        · rw [if_neg (not_not_intro hph), if_pos hupd]
        · rw [if_pos hph]

/-- Environment in which the deferred patch and the cascade status update
    both fail. -/
def env9 : Env := { envOk with patchErr := true, updateStatusErr := true }

/-- The subject request for the C9 witness (phase Failed, so the pipeline
    is a no-op and the deferred patch still runs). -/
def cr9 : ClusterRegistration :=
  { name := "reg9", nsName := "ns9", annotations := [],
    spec := { clusterName := "c9", kubeConfig := "blob" },
    status := { phase := "Failed", reason := "InvalidKubeconfig" } }

/-- The store for the C9 witness. -/
def w9 : World := { wEmpty with clusterRegistrations := [cr9] }

/-- Witness for the C9 theorem at a concrete input. -/
theorem status_write_surfacing_witness :
    Reconcile env9 "ns9" "reg9" w9 = some (w9, some GoErr.patchError) ∧
    (∀ clm w2, env9.updateStatusErr = true →
      requeueClusterRegistrationsForClusterManager env9 clm w2 = (w2, [])) :=
  status_write_surfacing env9 "ns9" "reg9" w9 cr9 (cr9, w9, [])
    rfl (by decide) (by decide) rfl

/-- Environment in which only the cascade status update fails. -/
def envLost : Env := { envOk with updateStatusErr := true }

/-- A registered ClusterManager whose parent is in phase Success. -/
def clm9 : ClusterManager :=
  { name := "c9", nsName := "ns9", annotations := [],
    labels := [(LabelKeyClmClusterType, ClusterTypeRegistered),
      (LabelKeyClmParent, "reg9s")],
    controlPlaneEndpoint := "" }

/-- The Success-phase parent for the C9 counterexample. -/
def crParent9 : ClusterRegistration :=
  { name := "reg9s", nsName := "ns9", annotations := [],
    spec := { clusterName := "c9", kubeConfig := "blob" },
    status := { phase := "Success", reason := "" } }

/-- The store for the C9 counterexample. -/
def w9L : World := { wEmpty with clusterRegistrations := [crParent9] }

/-- C9 counterexample: the cascade mapping attempts the Deleted update
    (parent present with phase Success), the update fails, and the mapping
    returns the unchanged store with an empty request list — the write is
    dropped without any error or requeue being surfaced. -/
theorem status_write_lost_counterexample :
    requeueClusterRegistrationsForClusterManager envLost clm9 w9L = (w9L, []) ∧
    (findCR w9L "ns9" "reg9s").map (fun c => c.status.phase) = some "Success" ∧
    envLost.updateStatusErr = true := by
  decide

/- ## C10 -/

/-- A kubeconfig that loads but whose current context is absent from the
    context map. -/
def kcNoCtx : KubeConfigFile :=
  { currentContext := "missing", contexts := [], clusters := [] }

/-- Environment for the C10 panic inputs: both blobs decode, and the
    context-less credential loads. -/
def envPanic : Env :=
  { envOk with
    decodeB64 := fun s =>
      if s == "blobNoUrl" then some "name target PLAIN no url"
      else if s == "blobNoCtx" then some "ctxless https://a.b" else none
    loadKubeConfig := fun s =>
      if s == "ctxless https://a.b" then some kcNoCtx else none }

/-- A SecretCreated request whose decoded credential contains no https
    endpoint. -/
def crNoUrl : ClusterRegistration :=
  { name := "r10a", nsName := "ns10", annotations := [],
    spec := { clusterName := "c10", kubeConfig := "blobNoUrl" },
    status := { phase := "SecretCreated", reason := "" } }

/-- A Validated request whose loadable credential lacks its current
    context entry. -/
def crNoCtx : ClusterRegistration :=
  { name := "r10b", nsName := "ns10", annotations := [],
    spec := { clusterName := "c10", kubeConfig := "blobNoCtx" },
    status := { phase := "Validated", reason := "" } }

/-- A credential secret holding the context-less kubeconfig. -/
def sec10 : Secret :=
  { name := "c10-kubeconfig", nsName := "ns10", annotations := [],
    finalizers := [], value := "ctxless https://a.b" }

/-- The tracking resource that sec10 refers to. -/
def clm10 : ClusterManager :=
  { name := "c10", nsName := "ns10", annotations := [], labels := [],
    controlPlaneEndpoint := "x" }

/-- A store containing that tracking resource. -/
def w10 : World := { wEmpty with clms := [clm10] }

/-- C10: on decodable (and, where applicable, loadable) credentials the
    three operations panic (modelled as `none`): CreateClusterManager
    slices the unchecked regex result, and CreateKubeconfigSecret /
    UpdateClusterManagerControlPlaneEndpoint dereference a missing
    current-context map entry. -/
theorem panic_paths :
    envPanic.decodeB64 "blobNoUrl" = some "name target PLAIN no url" ∧
    findHttps "name target PLAIN no url" = none ∧
    CreateClusterManager envPanic crNoUrl wEmpty = none ∧
    envPanic.loadKubeConfig "ctxless https://a.b" = some kcNoCtx ∧
    CreateKubeconfigSecret envPanic crNoCtx wEmpty = none ∧
    UpdateClusterManagerControlPlaneEndpoint envPanic sec10 w10 = none := by
  decide
